import Mathlib

/-!
Verification of the OCSP builder module (`src/cryptography/x509/ocsp.py`):
the hash-algorithm registry, the `_SingleResponse` validated record, and the
`OCSPRequestBuilder` / `OCSPResponseBuilder` immutable builders.

The dynamically typed Python parameters are embedded as small sum types that
distinguish a well-typed value, `None`, and an arbitrary other object, so
that `isinstance` checks and `is None` checks from the source translate
directly.  Python exceptions are embedded as `Except PyError`, with
`TypeError` / `ValueError` and their exact message strings.
-/

namespace OCSP

/-- A raised Python exception: `TypeError` or `ValueError` with its message. -/
inductive PyError where
  | typeError (msg : String)
  | valueError (msg : String)
deriving DecidableEq, Repr

/-- A Python value passed where an `x509.Certificate` is expected.
`isCertificate` is the result of `isinstance(v, x509.Certificate)`;
`id` distinguishes distinct objects. -/
structure Cert where
  id : Nat
  isCertificate : Bool
deriving DecidableEq, Repr

/-- A hash-algorithm object.  The five constructors are instances of the
classes listed in `_ALLOWED_HASHES`; `OTHER` is any other Python object
(a different hash class, a string, ...). -/
inductive AlgTag where
  | SHA1
  | SHA224
  | SHA256
  | SHA384
  | SHA512
  | OTHER (id : Nat)
deriving DecidableEq, Repr

/-- `isinstance(algorithm, _ALLOWED_HASHES)` from the source. -/
def AlgTag.isAllowedHash : AlgTag → Bool
  | .OTHER _ => false
  | _ => true

/-- `_verify_algorithm` (ocsp.py line 54). -/
def verify_algorithm (algorithm : AlgTag) : Except PyError Unit :=
  if !algorithm.isAllowedHash then
    .error (.valueError
      "Algorithm must be SHA1, SHA224, SHA256, SHA384, or SHA512")
  else
    .ok ()

/-- The `OCSPCertStatus` enum (ocsp.py line 61). -/
inductive OCSPCertStatus where
  | GOOD
  | REVOKED
  | UNKNOWN
deriving DecidableEq, Repr

/-- The wire value of each `OCSPCertStatus` member. -/
def OCSPCertStatus.value : OCSPCertStatus → Nat
  | .GOOD => 0
  | .REVOKED => 1
  | .UNKNOWN => 2

/-- A Python value passed where an `OCSPCertStatus` member is expected. -/
inductive PyCertStatus where
  | status (s : OCSPCertStatus)
  | notAStatus (id : Nat)
deriving DecidableEq, Repr

/-- The `OCSPResponseStatus` enum (ocsp.py line 35); value 4 is absent
per RFC 6960. -/
inductive OCSPResponseStatus where
  | SUCCESSFUL
  | MALFORMED_REQUEST
  | INTERNAL_ERROR
  | TRY_LATER
  | SIG_REQUIRED
  | UNAUTHORIZED
deriving DecidableEq, Repr

/-- The wire value of each `OCSPResponseStatus` member (0,1,2,3,5,6). -/
def OCSPResponseStatus.value : OCSPResponseStatus → Nat
  | .SUCCESSFUL => 0
  | .MALFORMED_REQUEST => 1
  | .INTERNAL_ERROR => 2
  | .TRY_LATER => 3
  | .SIG_REQUIRED => 5
  | .UNAUTHORIZED => 6

/-- A Python value passed where an `OCSPResponseStatus` member is expected. -/
inductive PyRespStatus where
  | status (s : OCSPResponseStatus)
  | notAStatus (id : Nat)
deriving DecidableEq, Repr

/-- The `OCSPResponderEncoding` enum (ocsp.py line 30). -/
inductive OCSPResponderEncoding where
  | HASH
  | NAME
deriving DecidableEq, Repr

/-- A Python value passed where an `OCSPResponderEncoding` member is
expected. -/
inductive PyEncoding where
  | enc (e : OCSPResponderEncoding)
  | notAnEncoding (id : Nat)
deriving DecidableEq, Repr

/-- The `x509.ReasonFlags` enum members relevant to revocation reasons. -/
inductive ReasonFlags where
  | unspecified
  | key_compromise
  | ca_compromise
  | affiliation_changed
  | superseded
  | cessation_of_operation
  | certificate_hold
  | privilege_withdrawn
  | aa_compromise
  | remove_from_crl
deriving DecidableEq, Repr

/-- A `datetime.datetime` value: `wall` is the wall-clock reading in
minutes since 1950-01-01 00:00, `off` is `utcoffset()` in minutes
(`none` for a naive datetime). -/
structure Datetime where
  wall : Int
  off : Option Int
deriving DecidableEq, Repr

/-- Comparison of two naive datetimes (`<` on wall-clock readings). -/
def Datetime.lt (a b : Datetime) : Bool :=
  a.wall < b.wall

/-- Modelled from the spec: `_convert_to_naive_utc_time` lives in
`cryptography.x509.base`, which is not under src/.  The spec states
"timestamps are normalized to UTC": an aware datetime is converted to the
equivalent UTC wall-clock reading and made naive; a naive datetime is
returned unchanged. -/
def convert_to_naive_utc_time (d : Datetime) : Datetime :=
  match d.off with
  | some o => { wall := d.wall - o, off := none }
  | none => d

/-- Modelled from the spec: `_EARLIEST_UTC_TIME` lives in
`cryptography.x509.base`, which is not under src/.  The spec states the
epoch floor is 1950-01-01; on the minutes-since-1950-01-01 scale this is
the naive datetime with wall-clock reading 0. -/
def EARLIEST_UTC_TIME : Datetime := { wall := 0, off := none }

/-- A Python value passed where an optional `datetime.datetime` is
expected: `None`, a datetime, or any other object. -/
inductive PyDT where
  | none
  | dt (d : Datetime)
  | other (id : Nat)
deriving DecidableEq, Repr

/-- A Python value passed where an optional `x509.ReasonFlags` member is
expected: `None`, a member, or any other object. -/
inductive PyReason where
  | none
  | reason (r : ReasonFlags)
  | other (id : Nat)
deriving DecidableEq, Repr

/-- The validated `_SingleResponse` record (ocsp.py line 70): the fields
stored by `__init__` after all checks pass.  `revocation_time` holds the
UTC-normalized value stored in the `REVOKED` branch. -/
structure SingleResponse where
  cert : Cert
  issuer : Cert
  algorithm : AlgTag
  this_update : Datetime
  next_update : Option Datetime
  cert_status : OCSPCertStatus
  revocation_time : Option Datetime
  revocation_reason : Option ReasonFlags
deriving DecidableEq, Repr

/-- The status-conditional checks of `_SingleResponse.__init__`
(ocsp.py lines 105-133): for a non-`REVOKED` status both revocation
fields must be `None`; for `REVOKED`, `revocation_time` must be a
datetime, is normalized to naive UTC, must not precede
`_EARLIEST_UTC_TIME`, and `revocation_reason` must be a `ReasonFlags`
member or `None`.  Returns the stored
`(revocation_time, revocation_reason)` pair. -/
def checkRevocationFields (cert_status_v : OCSPCertStatus)
    (revocation_time : PyDT) (revocation_reason : PyReason) :
    Except PyError (Option Datetime × Option ReasonFlags) :=
  if cert_status_v ≠ OCSPCertStatus.REVOKED then
    match revocation_time with
    | .none =>
      match revocation_reason with
      | .none => .ok (none, none)
      | _ =>
          .error (.valueError
            "revocation_reason can only be provided if the certificate is revoked")
    | _ =>
        .error (.valueError
          "revocation_time can only be provided if the certificate is revoked")
  else
    match revocation_time with
    | .dt d =>
      let rt := convert_to_naive_utc_time d
      if rt.lt EARLIEST_UTC_TIME then
        .error (.valueError
          "The revocation_time must be on or after 1950 January 1.")
      else
        match revocation_reason with
        | .none => .ok (some rt, none)
        | .reason r => .ok (some rt, some r)
        | .other _ =>
            .error (.typeError
              "revocation_reason must be an item from the ReasonFlags enum or None")
    | _ => .error (.typeError "revocation_time must be a datetime object")

/-- The tail of `_SingleResponse.__init__` from the `cert_status`
membership check on (ocsp.py lines 101-137), with `this_update` and
`next_update` already parsed. -/
def mkSingleResponseStatus (cert issuer : Cert) (algorithm : AlgTag)
    (cert_status : PyCertStatus) (this_update_v : Datetime)
    (next_update_v : Option Datetime) (revocation_time : PyDT)
    (revocation_reason : PyReason) : Except PyError SingleResponse :=
  match cert_status with
  | .notAStatus _ =>
      .error (.typeError "cert_status must be an item from the OCSPCertStatus enum")
  | .status cert_status_v =>
    match checkRevocationFields cert_status_v revocation_time revocation_reason with
    | .error e => .error e
    | .ok (rt, rr) =>
        .ok { cert := cert, issuer := issuer, algorithm := algorithm,
              this_update := this_update_v, next_update := next_update_v,
              cert_status := cert_status_v, revocation_time := rt,
              revocation_reason := rr }

/-- `_SingleResponse.__init__` (ocsp.py lines 71-137), check for check in
source order: cert/issuer `isinstance`, `_verify_algorithm`, `this_update`
and `next_update` type checks, `cert_status` membership, then the
status-conditional revocation checks of `checkRevocationFields`. -/
def mkSingleResponse (cert issuer : Cert) (algorithm : AlgTag)
    (cert_status : PyCertStatus) (this_update next_update : PyDT)
    (revocation_time : PyDT) (revocation_reason : PyReason) :
    Except PyError SingleResponse :=
  if !(cert.isCertificate && issuer.isCertificate) then
    .error (.typeError "cert and issuer must be a Certificate")
  else
    match verify_algorithm algorithm with
    | .error e => .error e
    | .ok _ =>
      match this_update with
      | .dt this_update_v =>
        match next_update with
        | .other _ =>
            .error (.typeError "next_update must be a datetime object or None")
        | .none => mkSingleResponseStatus cert issuer algorithm cert_status
            this_update_v none revocation_time revocation_reason
        | .dt d => mkSingleResponseStatus cert issuer algorithm cert_status
            this_update_v (some d) revocation_time revocation_reason
      | _ => .error (.typeError "this_update must be a datetime object")

/-- An `ObjectIdentifier` (dotted-string form). -/
structure ObjectIdentifier where
  dotted : String
deriving DecidableEq, Repr

/-- A Python value passed where an `x509.ExtensionType` is expected:
either an extension value carrying its `oid` and a payload, or any other
object. -/
inductive PyExtVal where
  | ext (oid : ObjectIdentifier) (payload : Nat)
  | notAnExtensionType (id : Nat)
deriving DecidableEq, Repr

/-- `x509.Extension(extval.oid, critical, extval)`: identifier,
criticality flag, and the wrapped extension value. -/
structure Extension where
  oid : ObjectIdentifier
  critical : Bool
  value : PyExtVal
deriving DecidableEq, Repr

/-- Modelled from the spec: `_reject_duplicate_extension` lives in
`cryptography.x509.base`, which is not under src/.  The spec states that
extension identifiers must be pairwise distinct and "adding a duplicate
identifier is a validation failure": the check fails exactly when some
extension already in the list has the same identifier. -/
def reject_duplicate_extension (extension : Extension)
    (extensions : List Extension) : Except PyError Unit :=
  if extensions.any (fun e => e.oid = extension.oid) then
    .error (.valueError "This extension has already been set.")
  else
    .ok ()

/-- `OCSPRequestBuilder` state (ocsp.py lines 315-325): an optional
`(cert, issuer, algorithm)` triple and the extension list. -/
structure OCSPRequestBuilder where
  request : Option (Cert × Cert × AlgTag)
  extensions : List Extension
deriving DecidableEq, Repr

/-- `OCSPRequestBuilder()` with its default arguments. -/
def OCSPRequestBuilder.empty : OCSPRequestBuilder :=
  { request := none, extensions := [] }

/-- `OCSPRequestBuilder.add_certificate` (ocsp.py lines 327-342):
occupancy check first, then `_verify_algorithm`, then the cert/issuer
`isinstance` check. -/
def OCSPRequestBuilder.add_certificate (b : OCSPRequestBuilder)
    (cert issuer : Cert) (algorithm : AlgTag) :
    Except PyError OCSPRequestBuilder :=
  if b.request.isSome then
    .error (.valueError "Only one certificate can be added to a request")
  else
    match verify_algorithm algorithm with
    | .error e => .error e
    | .ok _ =>
      if !(cert.isCertificate && issuer.isCertificate) then
        .error (.typeError "cert and issuer must be a Certificate")
      else
        .ok { request := some (cert, issuer, algorithm),
              extensions := b.extensions }

/-- `OCSPRequestBuilder.add_extension` (ocsp.py lines 344-355). -/
def OCSPRequestBuilder.add_extension (b : OCSPRequestBuilder)
    (extval : PyExtVal) (critical : Bool) :
    Except PyError OCSPRequestBuilder :=
  match extval with
  | .notAnExtensionType _ =>
      .error (.typeError "extension must be an ExtensionType")
  | .ext oid _ =>
    let extension : Extension := { oid := oid, critical := critical, value := extval }
    match reject_duplicate_extension extension b.extensions with
    | .error e => .error e
    | .ok _ =>
        .ok { request := b.request, extensions := b.extensions ++ [extension] }

/-- The value `backend.create_ocsp_request(self)` returns: the encoding
collaborator is external (not under src/), so the delegation is recorded
as the builder handed to it. -/
structure OCSPRequest where
  builder : OCSPRequestBuilder
deriving DecidableEq, Repr

/-- `OCSPRequestBuilder.build` (ocsp.py lines 357-363): fails on an empty
certificate slot, otherwise delegates to the encoding collaborator. -/
def OCSPRequestBuilder.build (b : OCSPRequestBuilder) :
    Except PyError OCSPRequest :=
  if b.request.isNone then
    .error (.valueError "You must add a certificate before building")
  else
    .ok { builder := b }

/-- An opaque private-key object (only passed through to the signing
collaborator). -/
structure PrivateKey where
  id : Nat
deriving DecidableEq, Repr

/-- `OCSPResponseBuilder` state (ocsp.py lines 367-379): optional single
response, optional `(responder certificate, encoding)` pair, optional
certificate list, and the extension list. -/
structure OCSPResponseBuilder where
  response : Option SingleResponse
  responderId : Option (Cert × OCSPResponderEncoding)
  certs : Option (List Cert)
  extensions : List Extension
deriving DecidableEq, Repr

/-- `OCSPResponseBuilder()` with its default arguments. -/
def OCSPResponseBuilder.empty : OCSPResponseBuilder :=
  { response := none, responderId := none, certs := none, extensions := [] }

/-- `OCSPResponseBuilder.add_response` (ocsp.py lines 381-410): occupancy
check first, then `_SingleResponse` construction with all its validation. -/
def OCSPResponseBuilder.add_response (b : OCSPResponseBuilder)
    (cert issuer : Cert) (algorithm : AlgTag) (cert_status : PyCertStatus)
    (this_update next_update : PyDT) (revocation_time : PyDT)
    (revocation_reason : PyReason) : Except PyError OCSPResponseBuilder :=
  if b.response.isSome then
    .error (.valueError "Only one response per OCSPResponse.")
  else
    match mkSingleResponse cert issuer algorithm cert_status
        this_update next_update revocation_time revocation_reason with
    | .error e => .error e
    | .ok singleresp =>
        .ok { response := some singleresp, responderId := b.responderId,
              certs := b.certs, extensions := b.extensions }

/-- `OCSPResponseBuilder.responder_id` (ocsp.py lines 412-429): occupancy
check first, then the `responder_cert` and `encoding` type checks. -/
def OCSPResponseBuilder.responder_id (b : OCSPResponseBuilder)
    (encoding : PyEncoding) (responder_cert : Cert) :
    Except PyError OCSPResponseBuilder :=
  if b.responderId.isSome then
    .error (.valueError "responder_id can only be set once")
  else if !responder_cert.isCertificate then
    .error (.typeError "responder_cert must be a Certificate")
  else
    match encoding with
    | .notAnEncoding _ =>
        .error (.typeError "encoding must be an element from OCSPResponderEncoding")
    | .enc enc =>
        .ok { response := b.response, responderId := some (responder_cert, enc),
              certs := b.certs, extensions := b.extensions }

/-- `OCSPResponseBuilder.certificates` (ocsp.py lines 431-446):
already-set check, then the emptiness check, then the element-wise
`isinstance` check. -/
def OCSPResponseBuilder.certificates (b : OCSPResponseBuilder)
    (certs : List Cert) : Except PyError OCSPResponseBuilder :=
  if b.certs.isSome then
    .error (.valueError "certificates may only be set once")
  else if certs.length = 0 then
    .error (.valueError "certs must not be an empty list")
  else if !(certs.all (fun x => x.isCertificate)) then
    .error (.typeError "certs must be a list of Certificates")
  else
    .ok { response := b.response, responderId := b.responderId,
          certs := some certs, extensions := b.extensions }

/-- `OCSPResponseBuilder.add_extension` (ocsp.py lines 448-462). -/
def OCSPResponseBuilder.add_extension (b : OCSPResponseBuilder)
    (extval : PyExtVal) (critical : Bool) :
    Except PyError OCSPResponseBuilder :=
  match extval with
  | .notAnExtensionType _ =>
      .error (.typeError "extension must be an ExtensionType")
  | .ext oid _ =>
    let extension : Extension := { oid := oid, critical := critical, value := extval }
    match reject_duplicate_extension extension b.extensions with
    | .error e => .error e
    | .ok _ =>
        .ok { response := b.response, responderId := b.responderId,
              certs := b.certs, extensions := b.extensions ++ [extension] }

/-- The value `backend.create_ocsp_response(status, builder, key, alg)`
returns: the signing/encoding collaborator is external (not under src/),
so the delegation is recorded as the four arguments handed to it.
`sign` passes `(SUCCESSFUL, self, private_key, algorithm)`;
`build_unsuccessful` passes `(status, None, None, None)`. -/
structure OCSPResponse where
  response_status : OCSPResponseStatus
  builder : Option OCSPResponseBuilder
  private_key : Option PrivateKey
  signing_algorithm : Option (Option AlgTag)
deriving DecidableEq, Repr

/-- `OCSPResponseBuilder.sign` (ocsp.py lines 464-478): fails without a
response, then without a responder id; otherwise delegates with status
`SUCCESSFUL`. -/
def OCSPResponseBuilder.sign (b : OCSPResponseBuilder)
    (private_key : PrivateKey) (algorithm : Option AlgTag) :
    Except PyError OCSPResponse :=
  if b.response.isNone then
    .error (.valueError "You must add a response before signing")
  else if b.responderId.isNone then
    .error (.valueError "You must add a responder_id before signing")
  else
    .ok { response_status := OCSPResponseStatus.SUCCESSFUL,
          builder := some b, private_key := some private_key,
          signing_algorithm := some algorithm }

/-- `OCSPResponseBuilder.build_unsuccessful` (ocsp.py lines 480-493): a
classmethod touching no builder state; `isinstance` check first, then the
`SUCCESSFUL` rejection, then delegation with `(status, None, None, None)`. -/
def OCSPResponseBuilder.build_unsuccessful (response_status : PyRespStatus) :
    Except PyError OCSPResponse :=
  match response_status with
  | .notAStatus _ =>
      .error (.typeError "response_status must be an item from OCSPResponseStatus")
  | .status s =>
    if s = OCSPResponseStatus.SUCCESSFUL then
      .error (.valueError "response_status cannot be SUCCESSFUL")
    else
      .ok { response_status := s, builder := none, private_key := none,
            signing_algorithm := none }

/-- Chains `OCSPRequestBuilder.add_extension` over a list of
`(oid, payload, critical)` triples, stopping at the first raised
exception (the way a sequence of builder calls runs in Python). -/
def addExtensionsReq (b : OCSPRequestBuilder) :
    List (ObjectIdentifier × Nat × Bool) → Except PyError OCSPRequestBuilder
  | [] => .ok b
  | (oid, payload, critical) :: rest =>
    match b.add_extension (.ext oid payload) critical with
    | .error e => .error e
    | .ok b2 => addExtensionsReq b2 rest

/-- Chains `OCSPResponseBuilder.add_extension` over a list of
`(oid, payload, critical)` triples, stopping at the first raised
exception. -/
def addExtensionsResp (b : OCSPResponseBuilder) :
    List (ObjectIdentifier × Nat × Bool) → Except PyError OCSPResponseBuilder
  | [] => .ok b
  | (oid, payload, critical) :: rest =>
    match b.add_extension (.ext oid payload) critical with
    | .error e => .error e
    | .ok b2 => addExtensionsResp b2 rest

/-- Concrete fixture: a genuine certificate object. -/
def certA : Cert := { id := 0, isCertificate := true }

/-- Concrete fixture: a second genuine certificate object. -/
def certB : Cert := { id := 1, isCertificate := true }

/-- Concrete fixture: an object that is not a certificate. -/
def certBad : Cert := { id := 2, isCertificate := false }

/-- Concrete fixture: a naive datetime after the 1950 floor. -/
def dtAfter : Datetime := { wall := 1000, off := none }

/-- Concrete fixture: a naive datetime strictly before 1950-01-01. -/
def dtBefore : Datetime := { wall := -1, off := none }


/-- Inversion for the status-conditional checks: when they succeed, the
stored revocation fields are consistent with the status. -/
theorem checkRevocationFields_ok (s : OCSPCertStatus) (rt : PyDT) (rr : PyReason)
    (p : Option Datetime × Option ReasonFlags)
    (h : checkRevocationFields s rt rr = .ok p) :
    (s = .REVOKED ↔ p.1.isSome) ∧ (p.2.isSome → s = .REVOKED) := by
  unfold checkRevocationFields at h
  by_cases hs : s = OCSPCertStatus.REVOKED <;> cases rt <;> cases rr <;> simp_all
  all_goals try subst h
  all_goals try simp_all
  all_goals (split at h <;> simp_all <;> subst h <;> simp_all)

/-- Inversion for `mkSingleResponse`: a successful construction always
came from an `OCSPCertStatus` member and a successful
`checkRevocationFields` run on that status. -/
theorem mkSingleResponse_ok_fields (cert issuer : Cert) (algorithm : AlgTag)
    (cs : PyCertStatus) (tu nu rt : PyDT) (rr : PyReason) (r : SingleResponse)
    (h : mkSingleResponse cert issuer algorithm cs tu nu rt rr = .ok r) :
    ∃ s, cs = .status s ∧ r.cert_status = s ∧
      checkRevocationFields s rt rr = .ok (r.revocation_time, r.revocation_reason) := by
  unfold mkSingleResponse at h
  split at h
  · simp at h
  · split at h
    · simp at h
    · cases cs with
      | notAStatus n => cases tu <;> cases nu <;> simp_all [mkSingleResponseStatus]
      | status s =>
        refine ⟨s, rfl, ?_⟩
        cases tu <;> cases nu <;> simp_all [mkSingleResponseStatus] <;>
          (split at h <;> simp_all)
        all_goals (rename_i heq; subst h; simp_all)

/-- C1: `_SingleResponse` construction fails with the dedicated
ValueError when `cert_status` is `GOOD` or `UNKNOWN` and `revocation_time`
(resp. `revocation_reason`) is not `None`, fails with a TypeError when
`cert_status` is `REVOKED` and `revocation_time` is `None`, and on every
successful construction `revocation_time` is populated iff the status is
`REVOKED` while `revocation_reason` is populated only if it is. -/
theorem c1_single_response_revocation_iff (cert issuer : Cert) (algorithm : AlgTag)
    (s : OCSPCertStatus) (d : Datetime) (nu rt : PyDT) (rr : PyReason)
    (hc : cert.isCertificate = true) (hi : issuer.isCertificate = true)
    (ha : algorithm.isAllowedHash = true) (hnu : ∀ n, nu ≠ PyDT.other n) :
    (s ≠ .REVOKED → rt ≠ PyDT.none →
      mkSingleResponse cert issuer algorithm (.status s) (.dt d) nu rt rr =
        .error (.valueError
          "revocation_time can only be provided if the certificate is revoked")) ∧
    (s ≠ .REVOKED → rt = PyDT.none → rr ≠ PyReason.none →
      mkSingleResponse cert issuer algorithm (.status s) (.dt d) nu rt rr =
        .error (.valueError
          "revocation_reason can only be provided if the certificate is revoked")) ∧
    (rt = PyDT.none →
      mkSingleResponse cert issuer algorithm (.status .REVOKED) (.dt d) nu rt rr =
        .error (.typeError "revocation_time must be a datetime object")) ∧
    (∀ (cs : PyCertStatus) (tu nu2 rt2 : PyDT) (rr2 : PyReason) (r : SingleResponse),
      mkSingleResponse cert issuer algorithm cs tu nu2 rt2 rr2 = .ok r →
      ((r.cert_status = .REVOKED ↔ r.revocation_time.isSome) ∧
        (r.revocation_reason.isSome → r.cert_status = .REVOKED))) := by
  refine ⟨?_, ?_, ?_, ?_⟩
  · intro hs hrt
    cases nu with
    | other n => exact absurd rfl (hnu n)
    | none => cases rt <;>
        simp_all [mkSingleResponse, verify_algorithm, mkSingleResponseStatus,
          checkRevocationFields]
    | dt d2 => cases rt <;>
        simp_all [mkSingleResponse, verify_algorithm, mkSingleResponseStatus,
          checkRevocationFields]
  · intro hs hrt hrr
    subst hrt
    cases nu with
    | other n => exact absurd rfl (hnu n)
    | none => cases rr <;>
        simp_all [mkSingleResponse, verify_algorithm, mkSingleResponseStatus,
          checkRevocationFields]
    | dt d2 => cases rr <;>
        simp_all [mkSingleResponse, verify_algorithm, mkSingleResponseStatus,
          checkRevocationFields]
  · intro hrt
    subst hrt
    cases nu with
    | other n => exact absurd rfl (hnu n)
    | none =>
        simp_all [mkSingleResponse, verify_algorithm, mkSingleResponseStatus,
          checkRevocationFields]
    | dt d2 =>
        simp_all [mkSingleResponse, verify_algorithm, mkSingleResponseStatus,
          checkRevocationFields]
  · intro cs tu nu2 rt2 rr2 r h
    obtain ⟨s2, rfl, hcs, hch⟩ := mkSingleResponse_ok_fields cert issuer algorithm
      _ tu nu2 rt2 rr2 r h
    have h2 := checkRevocationFields_ok s2 rt2 rr2 _ hch
    rw [hcs]
    simpa using h2

/-- Witness for C1 at a concrete input: status `GOOD` with a
`revocation_time` supplied is rejected. -/
theorem c1_witness :
    mkSingleResponse certA certB .SHA256 (.status .GOOD) (.dt dtAfter) .none
        (.dt dtAfter) .none =
      .error (.valueError
        "revocation_time can only be provided if the certificate is revoked") :=
  (c1_single_response_revocation_iff certA certB .SHA256 .GOOD dtAfter .none
      (.dt dtAfter) .none rfl rfl rfl (fun _n h => PyDT.noConfusion h)).1
    (fun h => OCSPCertStatus.noConfusion h) (fun h => PyDT.noConfusion h)

/-- Normalization always yields a naive datetime. -/
theorem convert_off_none (d : Datetime) : (convert_to_naive_utc_time d).off = none := by
  cases d with
  | mk w o => cases o <;> simp [convert_to_naive_utc_time]

/-- Inversion for the `REVOKED` branch: success stores the UTC-normalized
`revocation_time`, which passed the floor check. -/
theorem checkRevocationFields_revoked_dt (d : Datetime) (rr : PyReason)
    (p : Option Datetime × Option ReasonFlags)
    (h : checkRevocationFields .REVOKED (.dt d) rr = .ok p) :
    p.1 = some (convert_to_naive_utc_time d) ∧
      (convert_to_naive_utc_time d).lt EARLIEST_UTC_TIME = false := by
  unfold checkRevocationFields at h
  simp at h
  split at h <;> cases rr <;> simp_all <;> (subst h; simp)

/-- C2 counterexample: a `this_update` strictly before the 1950-01-01
floor (wall-clock minute -1) is accepted by `_SingleResponse`
construction, so the floor check does not cover `this_update`. -/
theorem c2_counterexample :
    Datetime.lt dtBefore EARLIEST_UTC_TIME = true ∧
    mkSingleResponse certA certB .SHA256 (.status .GOOD) (.dt dtBefore) .none
        .none .none =
      .ok { cert := certA, issuer := certB, algorithm := .SHA256,
            this_update := dtBefore, next_update := none,
            cert_status := .GOOD, revocation_time := none,
            revocation_reason := none } :=
  ⟨by decide, rfl⟩

/-- C2 (amended): only `revocation_time` (required when `cert_status` is
`REVOKED`) is normalized to naive UTC and rejected when before the
1950-01-01 floor; `this_update` and `next_update` are accepted as
arbitrary datetimes with no normalization or floor check. -/
theorem c2_revocation_time_floor (cert issuer : Cert) (algorithm : AlgTag)
    (d drt : Datetime) (nu : PyDT) (rr : PyReason)
    (hc : cert.isCertificate = true) (hi : issuer.isCertificate = true)
    (ha : algorithm.isAllowedHash = true) (hnu : ∀ n, nu ≠ PyDT.other n) :
    (∀ r, mkSingleResponse cert issuer algorithm (.status .REVOKED) (.dt d) nu
        (.dt drt) rr = .ok r →
      r.revocation_time = some (convert_to_naive_utc_time drt) ∧
      (convert_to_naive_utc_time drt).off = none ∧
      (convert_to_naive_utc_time drt).lt EARLIEST_UTC_TIME = false) ∧
    ((convert_to_naive_utc_time drt).lt EARLIEST_UTC_TIME = true →
      mkSingleResponse cert issuer algorithm (.status .REVOKED) (.dt d) nu
        (.dt drt) rr =
        .error (.valueError
          "The revocation_time must be on or after 1950 January 1.")) ∧
    (∀ d2 : Datetime, ∃ r,
      mkSingleResponse cert issuer algorithm (.status .GOOD) (.dt d) (.dt d2)
        .none .none = .ok r ∧ r.this_update = d ∧ r.next_update = some d2) := by
  refine ⟨?_, ?_, ?_⟩
  · intro r h
    obtain ⟨s2, hs2, hcs, hch⟩ := mkSingleResponse_ok_fields cert issuer algorithm
      _ _ nu _ rr r h
    cases hs2
    have h2 := checkRevocationFields_revoked_dt drt rr _ hch
    simp at h2
    exact ⟨h2.1, convert_off_none drt, h2.2⟩
  · intro hlt
    cases nu with
    | other n => exact absurd rfl (hnu n)
    | none =>
        simp_all [mkSingleResponse, verify_algorithm, mkSingleResponseStatus,
          checkRevocationFields]
    | dt d2 =>
        simp_all [mkSingleResponse, verify_algorithm, mkSingleResponseStatus,
          checkRevocationFields]
  · intro d2
    refine ⟨{ cert := cert, issuer := issuer, algorithm := algorithm,
              this_update := d, next_update := some d2, cert_status := .GOOD,
              revocation_time := none, revocation_reason := none }, ?_, rfl, rfl⟩
    simp_all [mkSingleResponse, verify_algorithm, mkSingleResponseStatus,
      checkRevocationFields]

/-- Witness for C2 at a concrete input: an aware `revocation_time` whose
UTC normalization falls before 1950-01-01 is rejected. -/
theorem c2_witness :
    mkSingleResponse certA certB .SHA256 (.status .REVOKED) (.dt dtAfter) .none
        (.dt { wall := 50, off := some 60 }) .none =
      .error (.valueError
        "The revocation_time must be on or after 1950 January 1.") :=
  (c2_revocation_time_floor certA certB .SHA256 dtAfter
      { wall := 50, off := some 60 } .none .none rfl rfl rfl
      (fun _n h => PyDT.noConfusion h)).2.1 (by decide)

/-- C3: `_verify_algorithm` accepts exactly the five tags SHA1, SHA224,
SHA256, SHA384, SHA512 and rejects every other algorithm with the
invalid-algorithm ValueError, and both entry points taking a hash
algorithm (`OCSPRequestBuilder.add_certificate` and
`OCSPResponseBuilder.add_response`) propagate exactly this validation. -/
theorem c3_algorithm_closed_set :
    (verify_algorithm .SHA1 = .ok () ∧ verify_algorithm .SHA224 = .ok () ∧
     verify_algorithm .SHA256 = .ok () ∧ verify_algorithm .SHA384 = .ok () ∧
     verify_algorithm .SHA512 = .ok ()) ∧
    (∀ n, verify_algorithm (.OTHER n) =
      .error (.valueError
        "Algorithm must be SHA1, SHA224, SHA256, SHA384, or SHA512")) ∧
    (∀ a : AlgTag, a.isAllowedHash = true ↔
      (a = .SHA1 ∨ a = .SHA224 ∨ a = .SHA256 ∨ a = .SHA384 ∨ a = .SHA512)) ∧
    (∀ (b : OCSPRequestBuilder) (c i : Cert) (a : AlgTag) (e : PyError),
      b.request = none → verify_algorithm a = .error e →
      b.add_certificate c i a = .error e) ∧
    (∀ (b : OCSPRequestBuilder) (c i : Cert) (a : AlgTag),
      b.request = none → c.isCertificate = true → i.isCertificate = true →
      ((b.add_certificate c i a).isOk = true ↔ a.isAllowedHash = true)) ∧
    (∀ (b : OCSPResponseBuilder) (c i : Cert) (a : AlgTag) (e : PyError)
      (cs : PyCertStatus) (tu nu rt : PyDT) (rr : PyReason),
      b.response = none → c.isCertificate = true → i.isCertificate = true →
      verify_algorithm a = .error e →
      b.add_response c i a cs tu nu rt rr = .error e) ∧
    (∀ (b : OCSPResponseBuilder) (c i : Cert) (a : AlgTag) (d : Datetime),
      b.response = none → c.isCertificate = true → i.isCertificate = true →
      ((b.add_response c i a (.status .GOOD) (.dt d) .none .none .none).isOk = true ↔
        a.isAllowedHash = true)) := by
  refine ⟨⟨rfl, rfl, rfl, rfl, rfl⟩, fun n => rfl, ?_, ?_, ?_, ?_, ?_⟩
  · intro a; cases a <;> simp [AlgTag.isAllowedHash]
  · intro b c i a e hreq he
    simp [OCSPRequestBuilder.add_certificate, hreq, he]
  · intro b c i a hreq hc hi
    cases ha : a.isAllowedHash <;>
      simp_all [OCSPRequestBuilder.add_certificate, verify_algorithm,
        Except.isOk, Except.toBool]
  · intro b c i a e cs tu nu rt rr hresp hc hi he
    simp [OCSPResponseBuilder.add_response, hresp, mkSingleResponse, hc, hi, he]
  · intro b c i a d hresp hc hi
    cases ha : a.isAllowedHash <;>
      simp_all [OCSPResponseBuilder.add_response, mkSingleResponse,
        verify_algorithm, mkSingleResponseStatus, checkRevocationFields,
        Except.isOk, Except.toBool]

/-- Witness for C3 at a concrete input: a non-member algorithm is
rejected by `add_certificate`. -/
theorem c3_witness :
    OCSPRequestBuilder.empty.add_certificate certA certB (.OTHER 3) =
      .error (.valueError
        "Algorithm must be SHA1, SHA224, SHA256, SHA384, or SHA512") :=
  c3_algorithm_closed_set.2.2.2.1 OCSPRequestBuilder.empty certA certB
    (.OTHER 3) _ rfl rfl

/-- C4 counterexample: after a FAILED first `add_certificate` (invalid
algorithm), a second `add_certificate` call on the same builder with
valid arguments succeeds, contradicting the claim that a second call
fails with a constraint error regardless of whether the first call
succeeded. -/
theorem c4_counterexample :
    OCSPRequestBuilder.empty.add_certificate certA certB (.OTHER 0) =
      .error (.valueError
        "Algorithm must be SHA1, SHA224, SHA256, SHA384, or SHA512") ∧
    (OCSPRequestBuilder.empty.add_certificate certA certB .SHA1).isOk = true :=
  ⟨rfl, rfl⟩

/-- C4 (amended): `build()` on an empty certificate slot fails with the
constraint ValueError; after one successful `add_certificate`, `build()`
succeeds by delegating to the encoding collaborator; a second
`add_certificate` on the builder returned by a successful one fails with
the constraint error regardless of its arguments; after a failed call the
builder is unchanged, so `add_certificate` with valid arguments
succeeds. -/
theorem c4_request_builder_lifecycle (b : OCSPRequestBuilder) :
    (b.request = none →
      b.build = .error (.valueError "You must add a certificate before building")) ∧
    (∀ (c i : Cert) (a : AlgTag) (b2 : OCSPRequestBuilder),
      b.add_certificate c i a = .ok b2 → b2.build = .ok { builder := b2 }) ∧
    (∀ (c i : Cert) (a : AlgTag) (b2 : OCSPRequestBuilder) (c2 i2 : Cert)
      (a2 : AlgTag),
      b.add_certificate c i a = .ok b2 →
      b2.add_certificate c2 i2 a2 =
        .error (.valueError "Only one certificate can be added to a request")) ∧
    (∀ (c2 i2 : Cert) (a2 : AlgTag),
      b.request = none → c2.isCertificate = true → i2.isCertificate = true →
      a2.isAllowedHash = true →
      (b.add_certificate c2 i2 a2).isOk = true) := by
  refine ⟨?_, ?_, ?_, ?_⟩
  · intro hreq
    simp [OCSPRequestBuilder.build, hreq]
  · intro c i a b2 h
    unfold OCSPRequestBuilder.add_certificate at h
    split at h
    · simp at h
    · split at h
      · simp at h
      · split at h
        · simp at h
        · cases h
          simp [OCSPRequestBuilder.build]
  · intro c i a b2 c2 i2 a2 h
    unfold OCSPRequestBuilder.add_certificate at h
    split at h
    · simp at h
    · split at h
      · simp at h
      · split at h
        · simp at h
        · cases h
          simp [OCSPRequestBuilder.add_certificate]
  · intro c2 i2 a2 hreq hc hi ha
    simp [OCSPRequestBuilder.add_certificate, hreq, verify_algorithm, ha, hc,
      hi, Except.isOk, Except.toBool]

/-- Witness for C4 at concrete inputs: one `add_certificate` on the empty
builder succeeds, and `build()` on the empty builder fails. -/
theorem c4_witness :
    ((OCSPRequestBuilder.empty.add_certificate certA certB .SHA1).isOk = true) ∧
    (OCSPRequestBuilder.empty.build =
      .error (.valueError "You must add a certificate before building")) :=
  ⟨(c4_request_builder_lifecycle OCSPRequestBuilder.empty).2.2.2 certA certB
      .SHA1 rfl rfl rfl rfl,
   (c4_request_builder_lifecycle OCSPRequestBuilder.empty).1 rfl⟩

/-- Inversion for `OCSPRequestBuilder.add_extension`: success appends the
new extension and implies its identifier was fresh. -/
theorem addExtension_req_ok (b : OCSPRequestBuilder) (oid : ObjectIdentifier)
    (p : Nat) (crit : Bool) (b2 : OCSPRequestBuilder)
    (h : b.add_extension (.ext oid p) crit = .ok b2) :
    b2 = { request := b.request,
           extensions := b.extensions ++
             [{ oid := oid, critical := crit, value := .ext oid p }] } ∧
    ∀ e ∈ b.extensions, e.oid ≠ oid := by
  unfold OCSPRequestBuilder.add_extension reject_duplicate_extension at h
  simp at h
  split at h <;> simp_all [List.any_eq_true]

/-- A fresh identifier makes `OCSPRequestBuilder.add_extension`
succeed, appending the extension. -/
theorem addExtension_req_step (b : OCSPRequestBuilder) (oid : ObjectIdentifier)
    (p : Nat) (crit : Bool)
    (hfresh : ∀ e ∈ b.extensions, e.oid ≠ oid) :
    b.add_extension (.ext oid p) crit =
      .ok { request := b.request,
            extensions := b.extensions ++
              [{ oid := oid, critical := crit, value := .ext oid p }] } := by
  have hcond : ¬ ∃ x ∈ b.extensions, x.oid = oid := by
    rintro ⟨e, he, heq⟩
    exact hfresh e he heq
  unfold OCSPRequestBuilder.add_extension reject_duplicate_extension
  simp [List.any_eq_true, hcond]

/-- Chaining `add_extension` over pairwise-distinct fresh identifiers
succeeds and appends the extensions in input order. -/
theorem addExtensionsReq_ok (items : List (ObjectIdentifier × Nat × Bool))
    (b : OCSPRequestBuilder)
    (hnodup : (items.map (fun x => x.1)).Nodup)
    (hfresh : ∀ x ∈ items, ∀ e ∈ b.extensions, e.oid ≠ x.1) :
    addExtensionsReq b items =
      .ok { request := b.request,
            extensions := b.extensions ++ items.map
              (fun x => { oid := x.1, critical := x.2.2,
                          value := .ext x.1 x.2.1 }) } := by
  induction items generalizing b with
  | nil => simp [addExtensionsReq]
  | cons hd tl ih =>
    obtain ⟨oid, payload, crit⟩ := hd
    have hstep := addExtension_req_step b oid payload crit
      (fun e he => hfresh (oid, payload, crit) (by simp) e he)
    have hnodup2 : (tl.map (fun x => x.1)).Nodup := by
      simp at hnodup
      exact hnodup.2
    have hfresh2 : ∀ x ∈ tl,
        ∀ e ∈ b.extensions ++ [(⟨oid, crit, PyExtVal.ext oid payload⟩ : Extension)],
        e.oid ≠ x.1 := by
      intro x hx e he
      simp at he
      rcases he with he | he
      · exact hfresh x (by simp [hx]) e he
      · subst he
        intro heq
        have hmem : x.1 ∈ tl.map (fun x => x.1) := List.mem_map_of_mem _ hx
        rw [List.map_cons] at hnodup
        have hne := (List.nodup_cons.mp hnodup).1
        simp at heq
        rw [heq] at hne
        exact hne hmem
    simp only [addExtensionsReq, hstep]
    rw [ih _ hnodup2 hfresh2]
    simp

/-- Inversion for `OCSPResponseBuilder.add_extension`: success appends
the new extension and implies its identifier was fresh. -/
theorem addExtension_resp_ok (b : OCSPResponseBuilder) (oid : ObjectIdentifier)
    (p : Nat) (crit : Bool) (b2 : OCSPResponseBuilder)
    (h : b.add_extension (.ext oid p) crit = .ok b2) :
    b2 = { response := b.response, responderId := b.responderId,
           certs := b.certs,
           extensions := b.extensions ++
             [{ oid := oid, critical := crit, value := .ext oid p }] } ∧
    ∀ e ∈ b.extensions, e.oid ≠ oid := by
  unfold OCSPResponseBuilder.add_extension reject_duplicate_extension at h
  simp at h
  split at h <;> simp_all [List.any_eq_true]

/-- A fresh identifier makes `OCSPResponseBuilder.add_extension`
succeed, appending the extension. -/
theorem addExtension_resp_step (b : OCSPResponseBuilder) (oid : ObjectIdentifier)
    (p : Nat) (crit : Bool)
    (hfresh : ∀ e ∈ b.extensions, e.oid ≠ oid) :
    b.add_extension (.ext oid p) crit =
      .ok { response := b.response, responderId := b.responderId,
            certs := b.certs,
            extensions := b.extensions ++
              [{ oid := oid, critical := crit, value := .ext oid p }] } := by
  have hcond : ¬ ∃ x ∈ b.extensions, x.oid = oid := by
    rintro ⟨e, he, heq⟩
    exact hfresh e he heq
  unfold OCSPResponseBuilder.add_extension reject_duplicate_extension
  simp [List.any_eq_true, hcond]

/-- Chaining the response-builder `add_extension` over pairwise-distinct
fresh identifiers succeeds and appends the extensions in input order. -/
theorem addExtensionsResp_ok (items : List (ObjectIdentifier × Nat × Bool))
    (b : OCSPResponseBuilder)
    (hnodup : (items.map (fun x => x.1)).Nodup)
    (hfresh : ∀ x ∈ items, ∀ e ∈ b.extensions, e.oid ≠ x.1) :
    addExtensionsResp b items =
      .ok { response := b.response, responderId := b.responderId,
            certs := b.certs,
            extensions := b.extensions ++ items.map
              (fun x => { oid := x.1, critical := x.2.2,
                          value := .ext x.1 x.2.1 }) } := by
  induction items generalizing b with
  | nil => simp [addExtensionsResp]
  | cons hd tl ih =>
    obtain ⟨oid, payload, crit⟩ := hd
    have hstep := addExtension_resp_step b oid payload crit
      (fun e he => hfresh (oid, payload, crit) (by simp) e he)
    have hnodup2 : (tl.map (fun x => x.1)).Nodup := by
      simp at hnodup
      exact hnodup.2
    have hfresh2 : ∀ x ∈ tl,
        ∀ e ∈ b.extensions ++ [(⟨oid, crit, PyExtVal.ext oid payload⟩ : Extension)],
        e.oid ≠ x.1 := by
      intro x hx e he
      simp at he
      rcases he with he | he
      · exact hfresh x (by simp [hx]) e he
      · subst he
        intro heq
        have hmem : x.1 ∈ tl.map (fun x => x.1) := List.mem_map_of_mem _ hx
        rw [List.map_cons] at hnodup
        have hne := (List.nodup_cons.mp hnodup).1
        simp at heq
        rw [heq] at hne
        exact hne hmem
    simp only [addExtensionsResp, hstep]
    rw [ih _ hnodup2 hfresh2]
    simp

/-- C5: on both builders, adding a second extension with an identifier
already present fails (whatever its criticality or payload), while adding
extensions with pairwise-distinct fresh identifiers always succeeds and
the stored list preserves insertion order. -/
theorem c5_extension_dedup_order :
    (∀ (b : OCSPRequestBuilder) (oid : ObjectIdentifier) (p p2 : Nat)
      (crit crit2 : Bool) (b2 : OCSPRequestBuilder),
      b.add_extension (.ext oid p) crit = .ok b2 →
      b2.add_extension (.ext oid p2) crit2 =
        .error (.valueError "This extension has already been set.")) ∧
    (∀ (b : OCSPResponseBuilder) (oid : ObjectIdentifier) (p p2 : Nat)
      (crit crit2 : Bool) (b2 : OCSPResponseBuilder),
      b.add_extension (.ext oid p) crit = .ok b2 →
      b2.add_extension (.ext oid p2) crit2 =
        .error (.valueError "This extension has already been set.")) ∧
    (∀ (b : OCSPRequestBuilder) (items : List (ObjectIdentifier × Nat × Bool)),
      (items.map (fun x => x.1)).Nodup →
      (∀ x ∈ items, ∀ e ∈ b.extensions, e.oid ≠ x.1) →
      addExtensionsReq b items =
        .ok { request := b.request,
              extensions := b.extensions ++ items.map
                (fun x => { oid := x.1, critical := x.2.2,
                            value := .ext x.1 x.2.1 }) }) ∧
    (∀ (b : OCSPResponseBuilder) (items : List (ObjectIdentifier × Nat × Bool)),
      (items.map (fun x => x.1)).Nodup →
      (∀ x ∈ items, ∀ e ∈ b.extensions, e.oid ≠ x.1) →
      addExtensionsResp b items =
        .ok { response := b.response, responderId := b.responderId,
              certs := b.certs,
              extensions := b.extensions ++ items.map
                (fun x => { oid := x.1, critical := x.2.2,
                            value := .ext x.1 x.2.1 }) }) := by
  refine ⟨?_, ?_, ?_, ?_⟩
  · intro b oid p p2 crit crit2 b2 h
    obtain ⟨hb2, _⟩ := addExtension_req_ok b oid p crit b2 h
    subst hb2
    unfold OCSPRequestBuilder.add_extension reject_duplicate_extension
    simp [List.any_eq_true]
  · intro b oid p p2 crit crit2 b2 h
    obtain ⟨hb2, _⟩ := addExtension_resp_ok b oid p crit b2 h
    subst hb2
    unfold OCSPResponseBuilder.add_extension reject_duplicate_extension
    simp [List.any_eq_true]
  · intro b items hnodup hfresh
    exact addExtensionsReq_ok items b hnodup hfresh
  · intro b items hnodup hfresh
    exact addExtensionsResp_ok items b hnodup hfresh

/-- Witness for C5 at concrete inputs: two extensions with distinct
identifiers are appended in order to the empty request builder. -/
theorem c5_witness :
    addExtensionsReq OCSPRequestBuilder.empty
        [({ dotted := "1.3.6.1.5.5.7.48.1.2" }, 0, false),
         ({ dotted := "1.3.6.1.5.5.7.48.1.4" }, 1, true)] =
      .ok { request := none,
            extensions :=
              [{ oid := { dotted := "1.3.6.1.5.5.7.48.1.2" }, critical := false,
                 value := .ext { dotted := "1.3.6.1.5.5.7.48.1.2" } 0 },
               { oid := { dotted := "1.3.6.1.5.5.7.48.1.4" }, critical := true,
                 value := .ext { dotted := "1.3.6.1.5.5.7.48.1.4" } 1 }] } := by
  have h := c5_extension_dedup_order.2.2.1 OCSPRequestBuilder.empty
    [({ dotted := "1.3.6.1.5.5.7.48.1.2" }, 0, false),
     ({ dotted := "1.3.6.1.5.5.7.48.1.4" }, 1, true)]
    (by simp) (by simp [OCSPRequestBuilder.empty])
  simpa [OCSPRequestBuilder.empty] using h

/-- C6: `certificates` fails on an empty list and on an already-set
certificate slot, succeeds on a non-empty list of certificates storing it
in input order, and the chain of a fresh builder is unset (`none`) and is
left untouched by all other mutating operations. -/
theorem c6_certificates (b : OCSPResponseBuilder) :
    (b.certs = none →
      b.certificates [] = .error (.valueError "certs must not be an empty list")) ∧
    (∀ (l cs : List Cert), b.certs = some l →
      b.certificates cs =
        .error (.valueError "certificates may only be set once")) ∧
    (∀ cs : List Cert, b.certs = none → cs ≠ [] →
      (∀ x ∈ cs, x.isCertificate = true) →
      b.certificates cs =
        .ok { response := b.response, responderId := b.responderId,
              certs := some cs, extensions := b.extensions }) ∧
    (OCSPResponseBuilder.empty.certs = none) ∧
    (∀ (c i : Cert) (a : AlgTag) (cs : PyCertStatus) (tu nu rt : PyDT)
      (rr : PyReason) (b2 : OCSPResponseBuilder),
      b.add_response c i a cs tu nu rt rr = .ok b2 → b2.certs = b.certs) ∧
    (∀ (enc : PyEncoding) (rc : Cert) (b2 : OCSPResponseBuilder),
      b.responder_id enc rc = .ok b2 → b2.certs = b.certs) ∧
    (∀ (ev : PyExtVal) (cr : Bool) (b2 : OCSPResponseBuilder),
      b.add_extension ev cr = .ok b2 → b2.certs = b.certs) := by
  refine ⟨?_, ?_, ?_, rfl, ?_, ?_, ?_⟩
  · intro hcerts
    simp [OCSPResponseBuilder.certificates, hcerts]
  · intro l cs hcerts
    simp [OCSPResponseBuilder.certificates, hcerts]
  · intro cs hcerts hne hall
    have hlen : ¬ cs.length = 0 := by simpa using hne
    have hbool : cs.all (fun x => x.isCertificate) = true := by
      simpa [List.all_eq_true] using hall
    simp [OCSPResponseBuilder.certificates, hcerts, hlen, hbool]
  · intro c i a cs tu nu rt rr b2 h
    unfold OCSPResponseBuilder.add_response at h
    split at h
    · simp at h
    · split at h
      · simp at h
      · cases h
        rfl
  · intro enc rc b2 h
    unfold OCSPResponseBuilder.responder_id at h
    split at h
    · simp at h
    · split at h
      · simp at h
      · split at h
        · simp at h
        · cases h
          rfl
  · intro ev cr b2 h
    cases ev with
    | notAnExtensionType n => simp [OCSPResponseBuilder.add_extension] at h
    | ext oid p =>
      obtain ⟨hb2, -⟩ := addExtension_resp_ok b oid p cr b2 h
      subst hb2
      rfl

/-- Witness for C6 at a concrete input: an empty list is rejected. -/
theorem c6_witness :
    OCSPResponseBuilder.empty.certificates [] =
      .error (.valueError "certs must not be an empty list") :=
  (c6_certificates OCSPResponseBuilder.empty).1 rfl

/-- C7: `sign` fails without a single response, then without a responder
id; with both set it delegates to the signing collaborator with status
`SUCCESSFUL`; and among the two response-producing operations only `sign`
ever yields a `SUCCESSFUL` response. -/
theorem c7_sign_successful_only (b : OCSPResponseBuilder) :
    (b.response = none → ∀ (k : PrivateKey) (a : Option AlgTag),
      b.sign k a = .error (.valueError "You must add a response before signing")) ∧
    (b.response ≠ none → b.responderId = none →
      ∀ (k : PrivateKey) (a : Option AlgTag),
      b.sign k a =
        .error (.valueError "You must add a responder_id before signing")) ∧
    (b.response ≠ none → b.responderId ≠ none →
      ∀ (k : PrivateKey) (a : Option AlgTag),
      b.sign k a =
        .ok { response_status := .SUCCESSFUL, builder := some b,
              private_key := some k, signing_algorithm := some a }) ∧
    (∀ (k : PrivateKey) (a : Option AlgTag) (resp : OCSPResponse),
      b.sign k a = .ok resp → resp.response_status = .SUCCESSFUL) ∧
    (∀ (ps : PyRespStatus) (resp : OCSPResponse),
      OCSPResponseBuilder.build_unsuccessful ps = .ok resp →
      resp.response_status ≠ .SUCCESSFUL) := by
  refine ⟨?_, ?_, ?_, ?_, ?_⟩
  · intro hresp k a
    simp [OCSPResponseBuilder.sign, hresp]
  · intro hresp hrid k a
    cases hr : b.response with
    | none => exact absurd hr hresp
    | some r0 => simp [OCSPResponseBuilder.sign, hr, hrid]
  · intro hresp hrid k a
    cases hr : b.response with
    | none => exact absurd hr hresp
    | some r0 =>
      cases hd : b.responderId with
      | none => exact absurd hd hrid
      | some rid => simp [OCSPResponseBuilder.sign, hr, hd]
  · intro k a resp h
    unfold OCSPResponseBuilder.sign at h
    split at h
    · simp at h
    · split at h
      · simp at h
      · cases h
        rfl
  · intro ps resp h
    unfold OCSPResponseBuilder.build_unsuccessful at h
    split at h
    · simp at h
    · split at h
      · simp at h
      · cases h
        simpa using by assumption

/-- Witness for C7 at a concrete input: signing an empty builder is
rejected. -/
theorem c7_witness :
    OCSPResponseBuilder.empty.sign { id := 5 } (some .SHA256) =
      .error (.valueError "You must add a response before signing") :=
  (c7_sign_successful_only OCSPResponseBuilder.empty).1 rfl { id := 5 }
    (some .SHA256)

/-- C8: `build_unsuccessful` needs no prior builder state, fails exactly
on `SUCCESSFUL` or a non-member value, and for each of the other five
statuses delegates with no single response, no certificates and no
signing key: the status is the only field it supplies. -/
theorem c8_build_unsuccessful_status_only :
    (∀ n, OCSPResponseBuilder.build_unsuccessful (.notAStatus n) =
      .error (.typeError
        "response_status must be an item from OCSPResponseStatus")) ∧
    (OCSPResponseBuilder.build_unsuccessful (.status .SUCCESSFUL) =
      .error (.valueError "response_status cannot be SUCCESSFUL")) ∧
    (∀ s : OCSPResponseStatus, s ≠ .SUCCESSFUL →
      OCSPResponseBuilder.build_unsuccessful (.status s) =
        .ok { response_status := s, builder := none, private_key := none,
              signing_algorithm := none }) ∧
    (∀ ps : PyRespStatus,
      (OCSPResponseBuilder.build_unsuccessful ps).isOk = true ↔
        ∃ s, ps = .status s ∧ s ≠ .SUCCESSFUL) := by
  refine ⟨fun n => rfl, rfl, ?_, ?_⟩
  · intro s hs
    simp [OCSPResponseBuilder.build_unsuccessful, hs]
  · intro ps
    cases ps with
    | notAStatus n =>
        simp [OCSPResponseBuilder.build_unsuccessful, Except.isOk, Except.toBool]
    | status s =>
      by_cases hs : s = OCSPResponseStatus.SUCCESSFUL <;>
        simp_all [OCSPResponseBuilder.build_unsuccessful, Except.isOk,
          Except.toBool]

/-- Witness for C8 at a concrete input: `TRY_LATER` produces a response
with only the status populated. -/
theorem c8_witness :
    OCSPResponseBuilder.build_unsuccessful (.status .TRY_LATER) =
      .ok { response_status := .TRY_LATER, builder := none,
            private_key := none, signing_algorithm := none } :=
  c8_build_unsuccessful_status_only.2.2.1 .TRY_LATER
    (fun h => OCSPResponseStatus.noConfusion h)

/-- C9: every mutating builder operation is a pure transformation: on
success the returned builder differs from the receiver only in the one
updated field, and a failed call leaves the receiver usable, so a
subsequent valid call on it succeeds. -/
theorem c9_builder_immutability :
    (∀ (b : OCSPRequestBuilder) (c i : Cert) (a : AlgTag)
      (b2 : OCSPRequestBuilder), b.add_certificate c i a = .ok b2 →
      b2.extensions = b.extensions ∧ b2.request = some (c, i, a)) ∧
    (∀ (b : OCSPRequestBuilder) (ev : PyExtVal) (cr : Bool)
      (b2 : OCSPRequestBuilder), b.add_extension ev cr = .ok b2 →
      b2.request = b.request ∧ ∃ x, b2.extensions = b.extensions ++ [x]) ∧
    (∀ (b : OCSPResponseBuilder) (c i : Cert) (a : AlgTag) (cs : PyCertStatus)
      (tu nu rt : PyDT) (rr : PyReason) (b2 : OCSPResponseBuilder),
      b.add_response c i a cs tu nu rt rr = .ok b2 →
      b2.responderId = b.responderId ∧ b2.certs = b.certs ∧
        b2.extensions = b.extensions) ∧
    (∀ (b : OCSPResponseBuilder) (enc : PyEncoding) (rc : Cert)
      (b2 : OCSPResponseBuilder), b.responder_id enc rc = .ok b2 →
      b2.response = b.response ∧ b2.certs = b.certs ∧
        b2.extensions = b.extensions) ∧
    (∀ (b : OCSPResponseBuilder) (cs : List Cert) (b2 : OCSPResponseBuilder),
      b.certificates cs = .ok b2 →
      b2.response = b.response ∧ b2.responderId = b.responderId ∧
        b2.extensions = b.extensions) ∧
    (∀ (b : OCSPResponseBuilder) (ev : PyExtVal) (cr : Bool)
      (b2 : OCSPResponseBuilder), b.add_extension ev cr = .ok b2 →
      b2.response = b.response ∧ b2.responderId = b.responderId ∧
        b2.certs = b.certs) ∧
    (∀ (b : OCSPResponseBuilder) (c i : Cert) (a : AlgTag) (cs : PyCertStatus)
      (tu nu rt : PyDT) (rr : PyReason) (c2 i2 : Cert) (a2 : AlgTag)
      (d2 : Datetime),
      b.response = none →
      (b.add_response c i a cs tu nu rt rr).isOk = false →
      c2.isCertificate = true → i2.isCertificate = true →
      a2.isAllowedHash = true →
      (b.add_response c2 i2 a2 (.status .GOOD) (.dt d2) .none .none
        .none).isOk = true) := by
  refine ⟨?_, ?_, ?_, ?_, ?_, ?_, ?_⟩
  · intro b c i a b2 h
    unfold OCSPRequestBuilder.add_certificate at h
    split at h
    · simp at h
    · split at h
      · simp at h
      · split at h
        · simp at h
        · cases h
          exact ⟨rfl, rfl⟩
  · intro b ev cr b2 h
    cases ev with
    | notAnExtensionType n => simp [OCSPRequestBuilder.add_extension] at h
    | ext oid p =>
      obtain ⟨hb2, -⟩ := addExtension_req_ok b oid p cr b2 h
      subst hb2
      exact ⟨rfl, _, rfl⟩
  · intro b c i a cs tu nu rt rr b2 h
    unfold OCSPResponseBuilder.add_response at h
    split at h
    · simp at h
    · split at h
      · simp at h
      · cases h
        exact ⟨rfl, rfl, rfl⟩
  · intro b enc rc b2 h
    unfold OCSPResponseBuilder.responder_id at h
    split at h
    · simp at h
    · split at h
      · simp at h
      · split at h
        · simp at h
        · cases h
          exact ⟨rfl, rfl, rfl⟩
  · intro b cs b2 h
    unfold OCSPResponseBuilder.certificates at h
    split at h
    · simp at h
    · split at h
      · simp at h
      · split at h
        · simp at h
        · cases h
          exact ⟨rfl, rfl, rfl⟩
  · intro b ev cr b2 h
    cases ev with
    | notAnExtensionType n => simp [OCSPResponseBuilder.add_extension] at h
    | ext oid p =>
      obtain ⟨hb2, -⟩ := addExtension_resp_ok b oid p cr b2 h
      subst hb2
      exact ⟨rfl, rfl, rfl⟩
  · intro b c i a cs tu nu rt rr c2 i2 a2 d2 hresp hfail hc hi ha
    simp [OCSPResponseBuilder.add_response, hresp, mkSingleResponse,
      verify_algorithm, ha, hc, hi, mkSingleResponseStatus,
      checkRevocationFields, Except.isOk, Except.toBool]

/-- Witness for C9 at concrete inputs: after a failed `add_response` on
the empty builder, a valid `add_response` on that same builder
succeeds. -/
theorem c9_witness :
    ((OCSPResponseBuilder.empty.add_response certA certB .SHA256
        (.status .GOOD) (.dt dtAfter) .none (.dt dtAfter) .none).isOk = false) ∧
    ((OCSPResponseBuilder.empty.add_response certA certB .SHA256
        (.status .GOOD) (.dt dtAfter) .none .none .none).isOk = true) :=
  ⟨rfl,
   c9_builder_immutability.2.2.2.2.2.2 OCSPResponseBuilder.empty certA certB
     .SHA256 (.status .GOOD) (.dt dtAfter) .none (.dt dtAfter) .none
     certA certB .SHA256 dtAfter rfl rfl rfl rfl rfl⟩

/-- C10: the occupancy check runs before any validation of the new
arguments: with `request`, `response` or `responder_id` already set, the
corresponding call fails with the occupancy error for ALL argument
values, valid or not. -/
theorem c10_occupancy_before_validation :
    (∀ (b : OCSPRequestBuilder) (t : Cert × Cert × AlgTag),
      b.request = some t → ∀ (c i : Cert) (a : AlgTag),
      b.add_certificate c i a =
        .error (.valueError "Only one certificate can be added to a request")) ∧
    (∀ (b : OCSPResponseBuilder) (r0 : SingleResponse),
      b.response = some r0 →
      ∀ (c i : Cert) (a : AlgTag) (cs : PyCertStatus) (tu nu rt : PyDT)
        (rr : PyReason),
      b.add_response c i a cs tu nu rt rr =
        .error (.valueError "Only one response per OCSPResponse.")) ∧
    (∀ (b : OCSPResponseBuilder) (rid : Cert × OCSPResponderEncoding),
      b.responderId = some rid → ∀ (enc : PyEncoding) (rc : Cert),
      b.responder_id enc rc =
        .error (.valueError "responder_id can only be set once")) := by
  refine ⟨?_, ?_, ?_⟩
  · intro b t ht c i a
    simp [OCSPRequestBuilder.add_certificate, ht]
  · intro b r0 hr c i a cs tu nu rt rr
    simp [OCSPResponseBuilder.add_response, hr]
  · intro b rid hd enc rc
    simp [OCSPResponseBuilder.responder_id, hd]

/-- Witness for C10 at a concrete input: with the certificate slot
filled, `add_certificate` raises the occupancy error even for
non-certificates and an invalid algorithm. -/
theorem c10_witness :
    OCSPRequestBuilder.add_certificate
        { request := some (certA, certB, .SHA1), extensions := [] }
        certBad certBad (.OTHER 9) =
      .error (.valueError "Only one certificate can be added to a request") :=
  c10_occupancy_before_validation.1
    { request := some (certA, certB, .SHA1), extensions := [] }
    (certA, certB, .SHA1) rfl certBad certBad (.OTHER 9)

end OCSP
